import Mathlib

/-!
# API_Balatro: `servidor.js`

A shallow embedding of the data-access core of `servidor.js`: the JSON cache
`getJsonData`, the start-up validation of `curingas`, the `GET /curingas`
filter and pagination handler, `GET /curingas/:id`, `GET /curingas/aleatorio`
and `GET /status`, followed by theorems about them.  The routes `/`,
`/health`, `/raridades` and `/tipos` only read `allData` and are not modelled.

Modelling conventions.

* JavaScript values coming out of `JSON.parse` are `JVal`.  JSON numbers are
  modelled for integer values (`Int`); all arithmetic is exact integer
  arithmetic, which agrees with the double arithmetic of the program as long
  as the numbers stay below `2 ^ 53` in absolute value.
* A thrown exception is `Except.error`; a handler that throws is answered by
  the generic Express error middleware (status 500).
* Query-string parameters are `Option String`: `none` is JavaScript
  `undefined` (parameter not supplied).  A parameter that Express delivers as
  an array or an object (a repeated or bracketed key) is outside the model.
* The two built-ins `String.prototype.toLowerCase` (a Unicode table) and
  `decodeURIComponent` are fields of `Builtins`; every general theorem holds
  for every choice of them, and `sampleBuiltins` is the instance used to
  evaluate examples.
* Reading the source file and `JSON.parse` are the environment: `Source`
  records what they do at a given moment.
-/

namespace Balatro

/-! ## JavaScript values -/

/-- Exceptions the modelled code can raise. -/
inductive JSError where
  | typeError
  | uriError
  | error
  deriving DecidableEq, Repr

/-- A JavaScript value as produced by `JSON.parse` or by a property read.  An
object is the list of its key-value pairs; a property read finds the first pair
with that key. -/
inductive JVal where
  | undefined
  | null
  | bool (b : Bool)
  | num (n : Int)
  | str (s : String)
  | arr (xs : List JVal)
  | obj (kvs : List (String × JVal))

/-- JavaScript `ToBoolean`. -/
def truthy : JVal → Bool
  | .undefined => false
  | .null => false
  | .bool b => b
  | .num n => n != 0
  | .str s => s != ""
  | .arr _ => true
  | .obj _ => true

/-- Property read `v.k` for the property names `servidor.js` uses (`id`,
`nome`, `raridade`, `tipo`, `curingas`, `meta`, `versao`, `data_atualizacao`);
none of them is a built-in property of a string, number, boolean or array, so
on those the read yields `undefined`.  Reading a property of `undefined` or
`null` throws a `TypeError`. -/
def getProp (v : JVal) (k : String) : Except JSError JVal :=
  match v with
  | .undefined => .error .typeError
  | .null => .error .typeError
  | .obj kvs => .ok ((kvs.lookup k).getD .undefined)
  | _ => .ok .undefined

/-- The test `Array.isArray(v)`. -/
def isArray : JVal → Bool
  | .arr _ => true
  | _ => false

/-- The elements of an array value (none for any other value). -/
def elementsOf : JVal → List JVal
  | .arr xs => xs
  | _ => []

/-- Strict equality `v === n` against a number. -/
def strictEqNum (v : JVal) (n : Int) : Bool :=
  match v with
  | .num m => m == n
  | _ => false

/-- Strict equality `v === s` against a string. -/
def strictEqStr (v : JVal) (s : String) : Bool :=
  match v with
  | .str t => t == s
  | _ => false

/-- The built-ins taken as parameters. -/
structure Builtins where
  toLowerCase : String → String
  decodeURIComponent : String → Except JSError String

/-- Method call `v.toLowerCase()`: defined on strings; on `undefined` and `null`
the property read throws, on any other JSON value the property is not a
function and the call throws. -/
def callToLowerCase (rt : Builtins) (v : JVal) : Except JSError String :=
  match v with
  | .str s => .ok (rt.toLowerCase s)
  | _ => .error .typeError

/-- The call `s.includes(t)`: `t` occurs in `s` as a contiguous substring. -/
def includes (s t : String) : Bool :=
  decide (t.data <:+: s.data)

/-! ## `parseInt(_, 10)` -/

/-- The characters `parseInt` skips at the start of its input (ECMAScript
`WhiteSpace` and `LineTerminator`). -/
def isStrWhiteSpace (c : Char) : Bool :=
  let n := c.toNat
  n == 0x09 || n == 0x0A || n == 0x0B || n == 0x0C || n == 0x0D || n == 0x20 ||
  n == 0xA0 || n == 0x1680 || (0x2000 ≤ n && n ≤ 0x200A) || n == 0x2028 ||
  n == 0x2029 || n == 0x202F || n == 0x205F || n == 0x3000 || n == 0xFEFF

/-- A decimal digit `0`..`9`. -/
def isDecDigit (c : Char) : Bool :=
  48 ≤ c.toNat && c.toNat ≤ 57

/-- Value of a run of decimal digits. -/
def digitsValue (ds : List Char) : Nat :=
  ds.foldl (fun a c => 10 * a + (c.toNat - 48)) 0

/-- The algorithm of `parseInt(_, 10)` on the characters of its input: skip
leading white space, read an optional sign, then the longest run of decimal
digits; whatever follows is ignored.  `none` is `NaN`. -/
def parseIntChars (cs : List Char) : Option Int :=
  let s := cs.dropWhile isStrWhiteSpace
  let neg := s.head? == some '-'
  let body := if s.head? == some '-' || s.head? == some '+' then s.tail else s
  let z := body.takeWhile isDecDigit
  if z.isEmpty then none
  else some (if neg then -(digitsValue z : Int) else (digitsValue z : Int))

/-- The call `parseInt(s, 10)` for a string `s`; `none` is `NaN`. -/
def parseIntJs (s : String) : Option Int :=
  parseIntChars s.data

/-- The conversion `ToString` of a query parameter: `undefined` becomes the
text `undefined`. -/
def paramToString : Option String → String
  | none => "undefined"
  | some s => s

/-- The expression `parseInt(p, 10) || d`: `NaN` and `0` are falsy and give
the default. -/
def parseIntOr (p : Option String) (d : Int) : Int :=
  match parseIntJs (paramToString p) with
  | none => d
  | some n => if n = 0 then d else n

/-! ## `Array.prototype.slice`, `Math.ceil` -/

/-- Clamping of a relative index of `slice` against the length: a negative
index counts from the end. -/
def relIndex (len : Nat) (i : Int) : Nat :=
  if i < 0 then (len + i).toNat else min i.toNat len

/-- The call `xs.slice(start, stop)`. -/
def jsSlice {α : Type} (xs : List α) (start stop : Int) : List α :=
  let k := relIndex xs.length start
  let f := relIndex xs.length stop
  (xs.drop k).take (f - k)

/-- The value `Math.ceil(a / b)` for integers `a` and `b ≠ 0`, the quotient taken
exactly. -/
def ceilDiv (a b : Int) : Int :=
  if 0 < b then -((-a) / b) else -(a / (-b))

/-! ## `GET /curingas` -/

/-- The query-string parameters read by the handler (`req.query`). -/
structure Query where
  nome : Option String
  raridade : Option String
  tipo : Option String
  limit : Option String
  page : Option String

/-- The body answered by `GET /curingas`. -/
structure QueryResult where
  total : Nat
  pagina : Int
  total_paginas : Int
  resultados : List JVal

/-- A filter parameter passes the test `if (p)` when it is supplied and is not
the empty string. -/
def activeParam : Option String → Option String
  | some s => if s = "" then none else some s
  | none => none

/-- The call `xs.filter(cb)` for a callback that may throw: the callback runs on the
elements from left to right and the first exception aborts the call. -/
def filterE {α : Type} (cb : α → Except JSError Bool) : List α → Except JSError (List α)
  | [] => .ok []
  | x :: xs =>
    match cb x with
    | .error e => .error e
    | .ok b =>
      match filterE cb xs with
      | .error e => .error e
      | .ok ys => .ok (if b then x :: ys else ys)

/-- Callback of the name filter:
`c => c.nome.toLowerCase().includes(nome.toLowerCase())`. -/
def nomeCallback (rt : Builtins) (nome : String) (c : JVal) : Except JSError Bool :=
  match getProp c "nome" with
  | .error e => .error e
  | .ok v =>
    match callToLowerCase rt v with
    | .error e => .error e
    | .ok l => .ok (includes l (rt.toLowerCase nome))

/-- Callback of the rarity filter:
`c => c.raridade.toLowerCase() === raridade.toLowerCase()`. -/
def raridadeCallback (rt : Builtins) (raridade : String) (c : JVal) : Except JSError Bool :=
  match getProp c "raridade" with
  | .error e => .error e
  | .ok v =>
    match callToLowerCase rt v with
    | .error e => .error e
    | .ok l => .ok (l == rt.toLowerCase raridade)

/-- Callback of the type filter: `c => c.tipo === decodeURIComponent(tipo)`. -/
def tipoCallback (rt : Builtins) (tipo : String) (c : JVal) : Except JSError Bool :=
  match getProp c "tipo" with
  | .error e => .error e
  | .ok v =>
    match rt.decodeURIComponent tipo with
    | .error e => .error e
    | .ok d => .ok (strictEqStr v d)

/-- One conditional filter step `if (p) resultados = resultados.filter(cb)`. -/
def filterStep (p : Option String) (cb : String → JVal → Except JSError Bool)
    (resultados : List JVal) : Except JSError (List JVal) :=
  match activeParam p with
  | none => .ok resultados
  | some s => filterE (cb s) resultados

/-- The filter part of the handler (the value of `resultados` when
`totalResultados` is taken). -/
def applyFilters (rt : Builtins) (curingas : List JVal) (q : Query) :
    Except JSError (List JVal) :=
  match filterStep q.nome (nomeCallback rt) curingas with
  | .error e => .error e
  | .ok r1 =>
    match filterStep q.raridade (raridadeCallback rt) r1 with
    | .error e => .error e
    | .ok r2 => filterStep q.tipo (tipoCallback rt) r2

/-- The constant `pageNum` of the handler. -/
def pageNum (q : Query) : Int := parseIntOr q.page 1

/-- The constant `limitNum` of the handler. -/
def limitNum (q : Query) : Int := parseIntOr q.limit 10

/-- The constant `startIndex` of the handler. -/
def startIndex (q : Query) : Int := (pageNum q - 1) * limitNum q

/-- The pagination part of the handler, applied to the filtered list. -/
def paginate (resultados : List JVal) (q : Query) : QueryResult :=
  { total := resultados.length
    pagina := pageNum q
    total_paginas := ceilDiv resultados.length (limitNum q)
    resultados := jsSlice resultados (startIndex q) (startIndex q + limitNum q) }

/-- The handler of `GET /curingas` over the served list `curingas`. -/
def curingasHandler (rt : Builtins) (curingas : List JVal) (q : Query) :
    Except JSError QueryResult :=
  match applyFilters rt curingas q with
  | .error e => .error e
  | .ok resultados => .ok (paginate resultados q)

/-! ## `GET /curingas/:id` -/

/-- Answers of `GET /curingas/:id`. -/
inductive IdResponse where
  | ok (curinga : JVal)
  | badRequest
  | notFound (id : Int)

/-- The call `xs.find(cb)` for a callback that may throw; `none` is `undefined`. -/
def findE {α : Type} (cb : α → Except JSError Bool) : List α → Except JSError (Option α)
  | [] => .ok none
  | x :: xs =>
    match cb x with
    | .error e => .error e
    | .ok true => .ok (some x)
    | .ok false => findE cb xs

/-- Callback of the lookup: `c => c.id === id`. -/
def idCallback (id : Int) (c : JVal) : Except JSError Bool :=
  match getProp c "id" with
  | .error e => .error e
  | .ok v => .ok (strictEqNum v id)

/-- The handler of `GET /curingas/:id`; `idParam` is `req.params.id`. -/
def curingaByIdHandler (curingas : List JVal) (idParam : String) :
    Except JSError IdResponse :=
  match parseIntJs idParam with
  | none => .ok .badRequest
  | some id =>
    match findE (idCallback id) curingas with
    | .error e => .error e
    | .ok none => .ok (.notFound id)
    | .ok (some c) => if truthy c then .ok (.ok c) else .ok (.notFound id)

/-! ## The JSON cache `getJsonData` -/

/-- The constant `CACHE_DURATION`, in milliseconds. -/
def CACHE_DURATION : Int := 5 * 60 * 1000

/-- The module variables `jsonCache` and `cacheTime`. -/
structure Cache where
  jsonCache : JVal
  cacheTime : Int

/-- The cache before the first call: `jsonCache = null`, `cacheTime = 0`. -/
def Cache.initial : Cache :=
  { jsonCache := .null, cacheTime := 0 }

/-- What `JSON.parse(fs.readFileSync(dataPath, 'utf8'))` does at a given
moment: `readFileSync` throws, or `JSON.parse` throws, or a document is
obtained. -/
inductive Source where
  | unreadable
  | unparsable
  | parsed (doc : JVal)

/-- The function `getJsonData`: the returned value and the cache afterwards.
`now` is `Date.now()`. -/
def getJsonData (now : Int) (src : Source) (c : Cache) : JVal × Cache :=
  if !truthy c.jsonCache || decide (now - c.cacheTime > CACHE_DURATION) then
    match src with
    | .parsed doc => (doc, { jsonCache := doc, cacheTime := now })
    | _ => (if truthy c.jsonCache then c.jsonCache else .obj [], c)
  else
    (c.jsonCache, c)

/-! ## Start-up: loading and validating `curingas` -/

/-- Callback of the start-up validation: `c => c.id && c.nome`, read as a
boolean by `filter`. -/
def validCallback (c : JVal) : Except JSError Bool :=
  match getProp c "id" with
  | .error e => .error e
  | .ok i =>
    if truthy i then
      match getProp c "nome" with
      | .error e => .error e
      | .ok n => .ok (truthy n)
    else .ok false

/-- The body of the start-up `try` after `allData = getJsonData()`: the list
assigned to `curingas`, or the exception that ends the process. -/
def validateCuringas (allData : JVal) : Except JSError (List JVal) :=
  match getProp allData "curingas" with
  | .error e => .error e
  | .ok v =>
    if truthy v && isArray v then filterE validCallback (elementsOf v)
    else .error .error

/-- The module state once the server is listening. -/
structure Server where
  cache : Cache
  allData : JVal
  curingas : List JVal

/-- Module initialisation; `Except.error` is `process.exit(1)`. -/
def startup (now : Int) (src : Source) : Except JSError Server :=
  let r := getJsonData now src Cache.initial
  match validateCuringas r.1 with
  | .error e => .error e
  | .ok cs => .ok { cache := r.2, allData := r.1, curingas := cs }

/-! ## Requests -/

/-- The `length` property of a value (`undefined` when it has none); a string
counts UTF-16 code units. -/
def getLength : JVal → Except JSError JVal
  | .undefined => .error .typeError
  | .null => .error .typeError
  | .arr xs => .ok (.num xs.length)
  | .str s => .ok (.num (s.data.foldl (fun n c => n + (if c.toNat < 0x10000 then 1 else 2)) 0))
  | .obj kvs => .ok ((kvs.lookup "length").getD .undefined)
  | _ => .ok .undefined

/-- The expression `a || b`. -/
def jsOr (a b : JVal) : JVal :=
  if truthy a then a else b

/-- Optional chaining `v?.k`. -/
def getPropOpt (v : JVal) (k : String) : JVal :=
  match getProp v k with
  | .error _ => .undefined
  | .ok x => x

/-- The fields of the `GET /status` body that depend on the data. -/
structure StatusBody where
  versao : JVal
  ultima_atualizacao : JVal
  total_curingas : JVal

/-- The body of `GET /status` computed from `currentData = getJsonData()`. -/
def statusBody (currentData : JVal) : Except JSError StatusBody :=
  match getProp currentData "meta" with
  | .error e => .error e
  | .ok meta =>
    match getProp currentData "curingas" with
    | .error e => .error e
    | .ok cs =>
      .ok { versao := jsOr (getPropOpt meta "versao") (.str "1.0")
            ultima_atualizacao := jsOr (getPropOpt meta "data_atualizacao") (.str "N/A")
            total_curingas :=
              jsOr (match getLength cs with | .error _ => .undefined | .ok n => n) (.num 0) }

/-- The state of the outside world when a request is handled. -/
structure World where
  now : Int
  source : Source
  random : ℚ

/-- The routes of the data-access core.  Express tries `/curingas/aleatorio`
before `/curingas/:id`, so `curingaById` is reached with any `idParam` other
than the text `aleatorio`. -/
inductive Request where
  | curingas (q : Query)
  | curingaById (idParam : String)
  | aleatorio
  | status

/-- What is sent back. -/
inductive Response where
  | lista (r : QueryResult)
  | porId (r : IdResponse)
  | sorteado (c : JVal)
  | indisponivel
  | status (b : StatusBody)
  | internalError (e : JSError)

/-- The pick `curingas[Math.floor(Math.random() * curingas.length)]`, with
`random` the value of `Math.random()`. -/
def randomPick (curingas : List JVal) (random : ℚ) : JVal :=
  let i := ⌊random * curingas.length⌋
  if i < 0 then .undefined else curingas.getD i.toNat .undefined

/-- One request against the module state: the response and the state
afterwards.  An exception of a handler reaches the error middleware. -/
def handle (rt : Builtins) (w : World) (s : Server) : Request → Response × Server
  | .curingas q =>
    match curingasHandler rt s.curingas q with
    | .error e => (.internalError e, s)
    | .ok r => (.lista r, s)
  | .curingaById idParam =>
    match curingaByIdHandler s.curingas idParam with
    | .error e => (.internalError e, s)
    | .ok r => (.porId r, s)
  | .aleatorio =>
    if s.curingas.length = 0 then (.indisponivel, s)
    else (.sorteado (randomPick s.curingas w.random), s)
  | .status =>
    let r := getJsonData w.now w.source s.cache
    match statusBody r.1 with
    | .error e => (.internalError e, { s with cache := r.2 })
    | .ok b => (.status b, { s with cache := r.2 })

/-! ## Notions used to state the properties -/

/-- The callback returned `true` (and did not throw). -/
def okTrue : Except JSError Bool → Bool
  | .ok true => true
  | _ => false

/-- The record's name is a text that contains the filter text as a substring,
ignoring case. -/
def nameContains (rt : Builtins) (nome : String) (c : JVal) : Bool :=
  match getProp c "nome" with
  | .ok (.str s) => includes (rt.toLowerCase s) (rt.toLowerCase nome)
  | _ => false

/-- The record's rarity is a text equal to the filter text, ignoring case. -/
def rarityEquals (rt : Builtins) (raridade : String) (c : JVal) : Bool :=
  match getProp c "raridade" with
  | .ok (.str s) => rt.toLowerCase s == rt.toLowerCase raridade
  | _ => false

/-- The record's type is a text equal to the percent-decoded filter value. -/
def typeEquals (rt : Builtins) (tipo : String) (c : JVal) : Bool :=
  match getProp c "tipo", rt.decodeURIComponent tipo with
  | .ok (.str t), .ok d => t == d
  | _, _ => false

/-- The record satisfies every filter that is present in the query (a filter
is present when its parameter is supplied with a non-empty text). -/
def satisfiesFilters (rt : Builtins) (q : Query) (c : JVal) : Bool :=
  (match activeParam q.nome with
    | none => true
    | some s => nameContains rt s c) &&
  ((match activeParam q.raridade with
    | none => true
    | some s => rarityEquals rt s c) &&
  (match activeParam q.tipo with
    | none => true
    | some s => typeEquals rt s c))

/-- Records on which the three filter callbacks cannot throw for a given
decoded type filter: `nome` and `raridade` are texts. -/
def hasTextFields (c : JVal) : Prop :=
  (∃ s, getProp c "nome" = .ok (.str s)) ∧ (∃ s, getProp c "raridade" = .ok (.str s))

/-- A field value is present and not empty: it is neither missing
(`undefined`), nor `null`, nor the empty text. -/
def presentNonEmpty : JVal → Bool
  | .undefined => false
  | .null => false
  | .str s => s != ""
  | _ => true

/-- A record whose `id` and `nome` both pass the JavaScript truth test (not
missing, `null`, `false`, `0` or the empty text). -/
def isValidCuringa (c : JVal) : Bool :=
  truthy (getPropOpt c "id") && truthy (getPropOpt c "nome")

/-- A list whose members all passed the start-up validation. -/
def Served (curingas : List JVal) : Prop :=
  ∀ c ∈ curingas, validCallback c = .ok true

/-- The parsed document has no list-valued `curingas` field. -/
def lacksRecordList (doc : JVal) : Bool :=
  match getProp doc "curingas" with
  | .ok (.arr _) => false
  | _ => true

/-- Value of a hexadecimal digit. -/
def hexValue (c : Char) : Option Nat :=
  let n := c.toNat
  if 48 ≤ n ∧ n ≤ 57 then some (n - 48)
  else if 65 ≤ n ∧ n ≤ 70 then some (n - 55)
  else if 97 ≤ n ∧ n ≤ 102 then some (n - 87)
  else none

/-- One escape `%XX` at the head of the text: its octet and the rest. -/
def readEscape : List Char → Option (Nat × List Char)
  | '%' :: a :: b :: rest =>
    match hexValue a, hexValue b with
    | some x, some y => some (16 * x + y, rest)
    | _, _ => none
  | _ => none

/-- The next `n` escapes. -/
def readEscapes : Nat → List Char → Option (List Nat × List Char)
  | 0, cs => some ([], cs)
  | n + 1, cs =>
    match readEscape cs with
    | none => none
    | some (b, rest) =>
      match readEscapes n rest with
      | none => none
      | some (bs, rest1) => some (b :: bs, rest1)

/-- Number of leading one bits of an octet (`5` stands for five or more). -/
def leadingOnes (b : Nat) : Nat :=
  if b < 0x80 then 0 else if b < 0xC0 then 1 else if b < 0xE0 then 2
  else if b < 0xF0 then 3 else if b < 0xF8 then 4 else 5

/-- A UTF-8 continuation octet. -/
def isContinuation (b : Nat) : Bool :=
  0x80 ≤ b && b < 0xC0

/-- The code point of a well-formed multi-octet UTF-8 sequence. -/
def utf8Value : List Nat → Option Nat
  | [b0, b1] =>
    let v := (b0 - 0xC0) * 64 + (b1 - 0x80)
    if isContinuation b1 && 0x80 ≤ v then some v else none
  | [b0, b1, b2] =>
    let v := (b0 - 0xE0) * 4096 + (b1 - 0x80) * 64 + (b2 - 0x80)
    if isContinuation b1 && isContinuation b2 && 0x800 ≤ v && !(0xD800 ≤ v && v ≤ 0xDFFF)
    then some v else none
  | [b0, b1, b2, b3] =>
    let v := (b0 - 0xF0) * 262144 + (b1 - 0x80) * 4096 + (b2 - 0x80) * 64 + (b3 - 0x80)
    if isContinuation b1 && isContinuation b2 && isContinuation b3 && 0x10000 ≤ v &&
      v ≤ 0x10FFFF
    then some v else none
  | _ => none

/-- Percent-decoding of a text, one character or escape group per unit of
fuel; a malformed escape is a `URIError`. -/
def decodeChars : Nat → List Char → Except JSError (List Char)
  | 0, _ => .ok []
  | _ + 1, [] => .ok []
  | fuel + 1, c :: rest =>
    if c = '%' then
      match readEscape (c :: rest) with
      | none => .error .uriError
      | some (b, rest1) =>
        if leadingOnes b = 0 then
          match decodeChars fuel rest1 with
          | .error e => .error e
          | .ok out => .ok (Char.ofNat b :: out)
        else if leadingOnes b = 1 ∨ 4 < leadingOnes b then .error .uriError
        else
          match readEscapes (leadingOnes b - 1) rest1 with
          | none => .error .uriError
          | some (bs, rest2) =>
            match utf8Value (b :: bs) with
            | none => .error .uriError
            | some v =>
              match decodeChars fuel rest2 with
              | .error e => .error e
              | .ok out => .ok (Char.ofNat v :: out)
    else
      match decodeChars fuel rest with
      | .error e => .error e
      | .ok out => .ok (c :: out)

/-- An instance of the built-ins for evaluating examples: lower-casing of the
ASCII letters, and `decodeURIComponent` after the ECMAScript `Decode`
operation. -/
def sampleBuiltins : Builtins :=
  { toLowerCase := fun s => String.mk (s.data.map Char.toLower)
    decodeURIComponent := fun s =>
      match decodeChars s.data.length s.data with
      | .error e => .error e
      | .ok out => .ok (String.mk out) }

/-- A query without parameters. -/
def emptyQuery : Query :=
  { nome := none, raridade := none, tipo := none, limit := none, page := none }

/-- A record with the four fields the handlers read. -/
def mkCuringa (id : Int) (nome raridade tipo : String) : JVal :=
  .obj [("id", .num id), ("nome", .str nome), ("raridade", .str raridade), ("tipo", .str tipo)]

/-- Three records. -/
def sampleCuringas : List JVal :=
  [mkCuringa 1 "Joker" "Comum" "+m", mkCuringa 2 "Greedy Joker" "Comum" "+m",
   mkCuringa 12 "Gros Michel" "Comum" "+m"]

/-- A record that has an `id` and a `nome` and no `raridade`. -/
def bareCuringa : JVal :=
  .obj [("id", .num 1), ("nome", .str "Joker")]

/-- A source document with the records of `sampleCuringas`. -/
def sampleDoc : JVal :=
  .obj [("curingas", .arr sampleCuringas)]

/-- A later version of the source document, with one other record. -/
def updatedDoc : JVal :=
  .obj [("curingas", .arr [mkCuringa 7 "Blueprint" "Raro" "Ef"])]

/-- The module state after a start-up from `sampleDoc` at time `0`. -/
def startedServer : Server :=
  { cache := { jsonCache := sampleDoc, cacheTime := 0 }
    allData := sampleDoc
    curingas := sampleCuringas }

/-! ## Arithmetic of `Math.ceil` -/

/-- When `filter` returns, it returns the elements on which the callback
answered `true`. -/
theorem filterE_ok {α : Type} (cb : α → Except JSError Bool) :
    ∀ (xs ys : List α), filterE cb xs = .ok ys → ys = xs.filter (fun x => okTrue (cb x)) := by
  intro xs
  induction xs with
  | nil => intro ys h; simp [filterE] at h; simp [h]
  | cons x xs ih =>
    intro ys h
    unfold filterE at h
    cases hx : cb x with
    | error e => rw [hx] at h; simp at h
    | ok b =>
      rw [hx] at h
      cases hr : filterE cb xs with
      | error e => rw [hr] at h; simp at h
      | ok zs =>
        rw [hr] at h
        have hz := ih zs hr
        simp only [Except.ok.injEq] at h
        have hk : okTrue (cb x) = b := by rw [hx]; cases b <;> rfl
        rw [List.filter_cons, hk, ← hz, ← h]

/-- When the callback throws on no element, `filter` returns. -/
theorem filterE_defined {α : Type} (cb : α → Except JSError Bool) :
    ∀ (xs : List α), (∀ x ∈ xs, ∃ b, cb x = .ok b) →
      filterE cb xs = .ok (xs.filter (fun x => okTrue (cb x))) := by
  intro xs
  induction xs with
  | nil => intro _; rfl
  | cons x xs ih =>
    intro h
    obtain ⟨b, hb⟩ := h x (by simp)
    have hr := ih (fun y hy => h y (by simp [hy]))
    unfold filterE
    have hk : okTrue (cb x) = b := by rw [hb]; cases b <;> rfl
    rw [hb, hr, List.filter_cons, hk]

/-! ## `slice` on a forward range -/

/-- The name callback answers `true` exactly on the records whose name
contains the filter text. -/
theorem okTrue_nomeCallback (rt : Builtins) (s : String) (c : JVal) :
    okTrue (nomeCallback rt s c) = nameContains rt s c := by
  unfold nomeCallback nameContains
  cases hg : getProp c "nome" with
  | error e => rfl
  | ok v =>
    cases v <;> simp [callToLowerCase, okTrue]
    cases includes _ _ <;> rfl

/-- The rarity callback answers `true` exactly on the records whose rarity
equals the filter text. -/
theorem okTrue_raridadeCallback (rt : Builtins) (s : String) (c : JVal) :
    okTrue (raridadeCallback rt s c) = rarityEquals rt s c := by
  unfold raridadeCallback rarityEquals
  cases hg : getProp c "raridade" with
  | error e => rfl
  | ok v =>
    cases v <;> simp [callToLowerCase, okTrue]
    rename_i t
    cases (rt.toLowerCase t == rt.toLowerCase s) <;> rfl

/-- The type callback answers `true` exactly on the records whose type equals
the decoded filter text. -/
theorem okTrue_tipoCallback (rt : Builtins) (s : String) (c : JVal) :
    okTrue (tipoCallback rt s c) = typeEquals rt s c := by
  unfold tipoCallback typeEquals
  cases hg : getProp c "tipo" with
  | error e => rfl
  | ok v =>
    cases hd : rt.decodeURIComponent s with
    | error e => cases v <;> rfl
    | ok d =>
      cases v <;> simp [strictEqStr, okTrue]
      rename_i t
      cases (t == d) <;> rfl

/-- The result of one conditional filter step, when it returns. -/
theorem filterStep_ok (p : Option String) (cb : String → JVal → Except JSError Bool)
    (xs ys : List JVal) (h : filterStep p cb xs = .ok ys) :
    ys = xs.filter (fun c => match activeParam p with
      | none => true
      | some s => okTrue (cb s c)) := by
  unfold filterStep at h
  cases ha : activeParam p with
  | none => rw [ha] at h; simp only [Except.ok.injEq] at h; simp [h]
  | some s => rw [ha] at h; simpa using filterE_ok (cb s) xs ys h

/-- When the three filter steps return, the result is the list of the records
that satisfy the filters. -/
theorem applyFilters_ok (rt : Builtins) (cs : List JVal) (q : Query) (fs : List JVal)
    (h : applyFilters rt cs q = .ok fs) : fs = cs.filter (satisfiesFilters rt q) := by
  unfold applyFilters at h
  cases h1 : filterStep q.nome (nomeCallback rt) cs with
  | error e => rw [h1] at h; simp at h
  | ok r1 =>
    rw [h1] at h
    simp only at h
    cases h2 : filterStep q.raridade (raridadeCallback rt) r1 with
    | error e => rw [h2] at h; simp at h
    | ok r2 =>
      rw [h2] at h
      simp only at h
      have e1 := filterStep_ok _ _ _ _ h1
      have e2 := filterStep_ok _ _ _ _ h2
      have e3 := filterStep_ok _ _ _ _ h
      rw [e3, e2, e1, List.filter_filter, List.filter_filter]
      apply List.filter_congr
      intro c _
      unfold satisfiesFilters
      cases activeParam q.nome <;> cases activeParam q.raridade <;> cases activeParam q.tipo <;>
        simp [okTrue_nomeCallback, okTrue_raridadeCallback, okTrue_tipoCallback, Bool.and_comm,
          Bool.and_left_comm, Bool.and_assoc]

/-- Without a present filter the list is returned unchanged. -/
theorem applyFilters_no_filters (rt : Builtins) (cs : List JVal) (q : Query)
    (h1 : activeParam q.nome = none) (h2 : activeParam q.raridade = none)
    (h3 : activeParam q.tipo = none) : applyFilters rt cs q = .ok cs := by
  simp [applyFilters, filterStep, h1, h2, h3]

/-- The filters return when `nome` and `raridade` of every record are texts and
the type filter decodes. -/
theorem applyFilters_defined (rt : Builtins) (cs : List JVal) (q : Query)
    (hrec : ∀ c ∈ cs, hasTextFields c)
    (hdec : ∀ s, activeParam q.tipo = some s → ∃ d, rt.decodeURIComponent s = .ok d) :
    applyFilters rt cs q = .ok (cs.filter (satisfiesFilters rt q)) := by
  have step1 : ∃ r1, filterStep q.nome (nomeCallback rt) cs = .ok r1 ∧ r1.Sublist cs := by
    unfold filterStep
    cases activeParam q.nome with
    | none => exact ⟨cs, rfl, List.Sublist.refl cs⟩
    | some s =>
      refine ⟨_, filterE_defined _ cs ?_, List.filter_sublist cs⟩
      intro c hc
      obtain ⟨⟨t, ht⟩, _⟩ := hrec c hc
      exact ⟨includes (rt.toLowerCase t) (rt.toLowerCase s), by simp [nomeCallback, ht, callToLowerCase]⟩
  obtain ⟨r1, h1, hs1⟩ := step1
  have step2 : ∃ r2, filterStep q.raridade (raridadeCallback rt) r1 = .ok r2 := by
    unfold filterStep
    cases activeParam q.raridade with
    | none => exact ⟨r1, rfl⟩
    | some s =>
      refine ⟨_, filterE_defined _ r1 ?_⟩
      intro c hc
      obtain ⟨_, ⟨t, ht⟩⟩ := hrec c (hs1.subset hc)
      exact ⟨rt.toLowerCase t == rt.toLowerCase s, by simp [raridadeCallback, ht, callToLowerCase]⟩
  obtain ⟨r2, h2⟩ := step2
  have step3 : ∃ r3, filterStep q.tipo (tipoCallback rt) r2 = .ok r3 := by
    unfold filterStep
    cases ht : activeParam q.tipo with
    | none => exact ⟨r2, rfl⟩
    | some s =>
      obtain ⟨d, hd⟩ := hdec s ht
      refine ⟨_, filterE_defined _ r2 ?_⟩
      intro c hc
      have hsub : r2.Sublist r1 := by
        have := filterStep_ok _ _ _ _ h2
        rw [this]; exact List.filter_sublist r1
      obtain ⟨⟨t, ht⟩, _⟩ := hrec c (hs1.subset (hsub.subset hc))
      have hg : ∃ v, getProp c "tipo" = .ok v := by
        cases c <;> simp [getProp] at ht ⊢
      obtain ⟨v, hv⟩ := hg
      exact ⟨strictEqStr v d, by simp [tipoCallback, hv, hd]⟩
  obtain ⟨r3, h3⟩ := step3
  have hall : applyFilters rt cs q = .ok r3 := by
    unfold applyFilters
    rw [h1]; simp only; rw [h2]; simp only; exact h3
  rw [hall, applyFilters_ok rt cs q r3 hall]

/-- C2. Whenever the filters of `GET /curingas` return, the list they produce
(whose length is the reported `total`) is a sub-list of the served records, in
their original order, and consists of exactly the records that satisfy every
filter present in the query: name containing the `nome` text ignoring case,
rarity equal to the `raridade` text ignoring case, type equal to the
percent-decoded `tipo` text.  They do return when `nome` and `raridade` of
every record are texts and the `tipo` text decodes.  An absent filter removes
nothing: without filters the list is the whole collection and `total` is the
number of records. -/
theorem filters_exact (rt : Builtins) (cs : List JVal) (q : Query) :
    (∀ fs, applyFilters rt cs q = .ok fs →
      fs = cs.filter (satisfiesFilters rt q) ∧
      fs.Sublist cs ∧
      (∀ c, c ∈ fs ↔ c ∈ cs ∧ satisfiesFilters rt q c = true) ∧
      ∃ r, curingasHandler rt cs q = .ok r ∧ r.total = fs.length) ∧
    ((∀ c ∈ cs, hasTextFields c) →
      (∀ s, activeParam q.tipo = some s → ∃ d, rt.decodeURIComponent s = .ok d) →
      applyFilters rt cs q = .ok (cs.filter (satisfiesFilters rt q))) ∧
    (activeParam q.nome = none → activeParam q.raridade = none →
      activeParam q.tipo = none →
      applyFilters rt cs q = .ok cs ∧
      ∃ r, curingasHandler rt cs q = .ok r ∧ r.total = cs.length) := by
  refine ⟨?_, applyFilters_defined rt cs q, ?_⟩
  · intro fs h
    have hfs := applyFilters_ok rt cs q fs h
    refine ⟨hfs, ?_, ?_, ?_⟩
    · rw [hfs]; exact List.filter_sublist cs
    · intro c; rw [hfs]; exact List.mem_filter
    · exact ⟨paginate fs q, by simp [curingasHandler, h], rfl⟩
  · intro h1 h2 h3
    have h := applyFilters_no_filters rt cs q h1 h2 h3
    exact ⟨h, paginate cs q, by simp [curingasHandler, h], rfl⟩

theorem filters_exact_witness :
    applyFilters sampleBuiltins sampleCuringas { emptyQuery with nome := some "JOKER" } =
      .ok [mkCuringa 1 "Joker" "Comum" "+m", mkCuringa 2 "Greedy Joker" "Comum" "+m"] ∧
    [mkCuringa 1 "Joker" "Comum" "+m", mkCuringa 2 "Greedy Joker" "Comum" "+m"] =
      sampleCuringas.filter
        (satisfiesFilters sampleBuiltins { emptyQuery with nome := some "JOKER" }) ∧
    (activeParam emptyQuery.nome = none ∧ activeParam emptyQuery.raridade = none ∧
      activeParam emptyQuery.tipo = none ∧
      applyFilters sampleBuiltins sampleCuringas emptyQuery = .ok sampleCuringas) :=
  ⟨rfl,
    ((filters_exact sampleBuiltins sampleCuringas { emptyQuery with nome := some "JOKER" }).1
      _ rfl).1,
    rfl, rfl, rfl,
    ((filters_exact sampleBuiltins sampleCuringas emptyQuery).2.2 rfl rfl rfl).1⟩

/-! ## Concatenation of the pages -/

/-- C3. A record that passes the start-up validation (it has an `id` and a
`nome`) and has no `raridade` makes `GET /curingas?raridade=Comum` throw a
`TypeError` instead of answering a result object; with the sample built-ins,
so does `GET /curingas?tipo=%` (a `URIError`) on the sample records. -/
theorem handler_throws (rt : Builtins) :
    validateCuringas (.obj [("curingas", .arr [bareCuringa])]) = .ok [bareCuringa] ∧
    curingasHandler rt [bareCuringa] { emptyQuery with raridade := some "Comum" } =
      .error .typeError ∧
    curingasHandler sampleBuiltins sampleCuringas { emptyQuery with tipo := some "%" } =
      .error .uriError :=
  ⟨rfl, rfl, rfl⟩

/-! ## Lookup by id -/

/-- On an entry that is neither `null` nor `undefined` the validation callback
does not throw and tests `id` and `nome` for truth. -/
theorem validCallback_of_object (x : JVal) (h1 : x ≠ .null) (h2 : x ≠ .undefined) :
    validCallback x = .ok (isValidCuringa x) := by
  cases x with
  | undefined => exact absurd rfl h2
  | null => exact absurd rfl h1
  | obj kvs =>
    simp only [validCallback, isValidCuringa, getPropOpt, getProp]
    cases truthy ((kvs.lookup "id").getD .undefined) <;> simp
  | _ => rfl

/-- C5 (as stated, refuted). A record with the numeric id `0` and the name
`Joker` has an id and a name that are present and not empty, and it is dropped;
and a source document whose `curingas` list has a `null` entry has no served
collection at all, the start-up ends the process. -/
theorem load_validation_counterexample :
    (presentNonEmpty (.num 0) = true ∧ presentNonEmpty (.str "Joker") = true ∧
      ∃ s, startup 0 (.parsed (.obj [("curingas",
        .arr [.obj [("id", .num 0), ("nome", .str "Joker")]])])) = .ok s ∧ s.curingas = []) ∧
    startup 0 (.parsed (.obj [("curingas", .arr [.null])])) = .error .typeError :=
  ⟨⟨rfl, rfl, _, rfl, rfl⟩, rfl⟩

/-- C5 (amended). For every parsed source document whose `curingas` field is a
list without `null` entries, the start-up succeeds and the served collection
is exactly the sub-list, in original order, of the entries whose `id` and
`nome` both pass the JavaScript truth test; every served record passed the
validation and every such entry is kept. -/
theorem load_validation (now : Int) (doc : JVal) (xs : List JVal)
    (hdoc : getProp doc "curingas" = .ok (.arr xs))
    (hx : ∀ x ∈ xs, x ≠ .null ∧ x ≠ .undefined) :
    ∃ s, startup now (.parsed doc) = .ok s ∧
      s.curingas = xs.filter isValidCuringa ∧
      s.curingas.Sublist xs ∧
      Served s.curingas ∧
      (∀ x ∈ xs, isValidCuringa x = true → x ∈ s.curingas) := by
  have hfe : filterE validCallback xs = .ok (xs.filter isValidCuringa) := by
    rw [filterE_defined validCallback xs
      (fun x hx' => ⟨_, validCallback_of_object x (hx x hx').1 (hx x hx').2⟩)]
    congr 1
    apply List.filter_congr
    intro x hx'
    rw [validCallback_of_object x (hx x hx').1 (hx x hx').2]
    cases isValidCuringa x <;> rfl
  have hget : getJsonData now (.parsed doc) Cache.initial =
      (doc, { jsonCache := doc, cacheTime := now }) := by
    simp [getJsonData, Cache.initial, truthy]
  refine ⟨{ cache := { jsonCache := doc, cacheTime := now }, allData := doc,
            curingas := xs.filter isValidCuringa }, ?_, rfl, List.filter_sublist xs, ?_, ?_⟩
  · simp [startup, hget, validateCuringas, hdoc, hfe, truthy, isArray, elementsOf]
  · intro c hc
    have hm := List.mem_filter.1 hc
    rw [validCallback_of_object c (hx c hm.1).1 (hx c hm.1).2, hm.2]
  · intro x hx' hv
    exact List.mem_filter.2 ⟨hx', hv⟩

theorem load_validation_witness :
    getProp sampleDoc "curingas" = .ok (.arr sampleCuringas) ∧
    ∃ s, startup 0 (.parsed sampleDoc) = .ok s ∧
      s.curingas = sampleCuringas.filter isValidCuringa ∧
      s.curingas.Sublist sampleCuringas ∧
      Served s.curingas ∧
      (∀ x ∈ sampleCuringas, isValidCuringa x = true → x ∈ s.curingas) :=
  ⟨rfl, load_validation 0 sampleDoc sampleCuringas rfl (by
    intro x hx
    simp only [sampleCuringas, List.mem_cons, List.mem_singleton, List.not_mem_nil,
      or_false] at hx
    rcases hx with rfl | rfl | rfl <;> exact ⟨by simp [mkCuringa], by simp [mkCuringa]⟩)⟩

/-! ## The cache -/

/-- C6 (as stated, refuted). With a snapshot that has expired, a refresh that
reads a parsed document without a list-valued `curingas` field is not treated
as a failure: `getJsonData` returns that document and stores it as the new
snapshot. -/
theorem cache_fallback_counterexample :
    truthy sampleDoc = true ∧
    lacksRecordList sampleDoc = false ∧
    (400000 : Int) - 0 > CACHE_DURATION ∧
    lacksRecordList (.obj []) = true ∧
    getJsonData 400000 (.parsed (.obj [])) { jsonCache := sampleDoc, cacheTime := 0 } =
      (.obj [], { jsonCache := .obj [], cacheTime := 400000 }) :=
  ⟨rfl, rfl, by decide, rfl, rfl⟩

/-- C6 (amended). With a snapshot that has expired, when the refresh fails
because the source cannot be read or cannot be parsed, `getJsonData` returns
the previous snapshot and leaves the stored snapshot and its time unchanged;
when the source parses, the parsed document is returned and stored, whatever
its fields. -/
theorem cache_fallback (now : Int) (c : Cache) (src : Source)
    (hsnap : truthy c.jsonCache = true) (hexp : now - c.cacheTime > CACHE_DURATION) :
    ((src = .unreadable ∨ src = .unparsable) → getJsonData now src c = (c.jsonCache, c)) ∧
    (∀ doc, src = .parsed doc →
      getJsonData now src c = (doc, { jsonCache := doc, cacheTime := now })) := by
  constructor
  · intro h
    rcases h with rfl | rfl <;> simp [getJsonData, hsnap, hexp]
  · intro doc h
    subst h
    simp [getJsonData, hsnap, hexp]

theorem cache_fallback_witness :
    truthy sampleDoc = true ∧
    (400000 : Int) - 0 > CACHE_DURATION ∧
    getJsonData 400000 .unparsable { jsonCache := sampleDoc, cacheTime := 0 } =
      (sampleDoc, { jsonCache := sampleDoc, cacheTime := 0 }) :=
  ⟨rfl, by decide,
    (cache_fallback 400000 { jsonCache := sampleDoc, cacheTime := 0 } .unparsable rfl
      (by decide)).1 (Or.inr rfl)⟩

/-- The random value `0` picks the first record. -/
theorem randomPick_zero (c : JVal) (cs : List JVal) : randomPick (c :: cs) 0 = c := by
  simp [randomPick]

/-- C7. The handlers of `GET /curingas` and `GET /curingas/:id` answer from
the list loaded at start-up whatever the time and the source are, and leave
the cache untouched.  After a start-up from `sampleDoc` at time `0`, a request
made at time `1000000` (more than `CACHE_DURATION` later) while the source
holds `updatedDoc` is answered by `GET /curingas`, `GET /curingas/:id` and
`GET /curingas/aleatorio` from the start-up records: the list is that of
`sampleDoc`, record 7 of the new source is not found and the random pick is a
start-up record, while `GET /status` at the same moment reloads the cache and
reports the one record of the new source. -/
theorem stale_after_reload (rt : Builtins) :
    (∀ (w w' : World) (s : Server) (q : Query),
      handle rt w s (.curingas q) = handle rt w' s (.curingas q) ∧
      (handle rt w s (.curingas q)).2 = s) ∧
    (∀ (w w' : World) (s : Server) (idParam : String),
      handle rt w s (.curingaById idParam) = handle rt w' s (.curingaById idParam) ∧
      (handle rt w s (.curingaById idParam)).2 = s) ∧
    startup 0 (.parsed sampleDoc) = .ok startedServer ∧
    (1000000 : Int) - startedServer.cache.cacheTime > CACHE_DURATION ∧
    validateCuringas updatedDoc = .ok [mkCuringa 7 "Blueprint" "Raro" "Ef"] ∧
    handle rt { now := 1000000, source := .parsed updatedDoc, random := 0 } startedServer
      (.curingas emptyQuery) = (.lista (paginate sampleCuringas emptyQuery), startedServer) ∧
    handle rt { now := 1000000, source := .parsed updatedDoc, random := 0 } startedServer
      (.curingaById "7") = (.porId (.notFound 7), startedServer) ∧
    handle rt { now := 1000000, source := .parsed updatedDoc, random := 0 } startedServer
      .aleatorio = (.sorteado (mkCuringa 1 "Joker" "Comum" "+m"), startedServer) ∧
    handle rt { now := 1000000, source := .parsed updatedDoc, random := 0 } startedServer
      .status =
      (.status { versao := .str "1.0", ultima_atualizacao := .str "N/A",
                 total_curingas := .num 1 },
       { startedServer with cache := { jsonCache := updatedDoc, cacheTime := 1000000 } }) := by
  refine ⟨?_, ?_, rfl, by decide, rfl, rfl, rfl, ?_, rfl⟩
  · intro w w' s q
    refine ⟨rfl, ?_⟩
    simp only [handle]
    cases curingasHandler rt s.curingas q <;> rfl
  · intro w w' s idParam
    refine ⟨rfl, ?_⟩
    simp only [handle]
    cases curingaByIdHandler s.curingas idParam <;> rfl
  · simp [handle, startedServer, sampleCuringas, randomPick_zero]

/-! ## Page size and page number -/

end Balatro
